import Mathlib

/-!
Shallow embedding of `bmstu::optional<T>` (src/bmstu_optional.h).

The container state is modelled by `OptionalState T`: `data` is the live
object currently constructed in the aligned byte buffer `data_` (`none`
when no constructed `T` lives there), and `engaged` models the boolean
member `is_initialized_`.

Checked accessors return `Except BadOptionalAccess _`, mirroring
`throw bad_optional_access()`.  Reading the storage through
`reinterpret_cast<pointer>(data_)` is modelled by `readStorage`, which
returns the raw storage content as an `Option T` (`none` = no live object,
i.e. the C++ read would be undefined behaviour).

Operations of the contained type `T` are value-semantic in the model:
 * copy construction / copy assignment of `T` preserve the value;
 * a move of a `T` is an arbitrary function `mv : T → T × T`,
   `mv x = (taken, residue)`: the destination receives `taken` and the
   moved-from source is left holding `residue`;
 * `x = std::move(x)` (move assignment with aliased operands, which the
   source's unguarded `operator=(optional&&)` can perform) is an arbitrary
   function `smv : T → T` giving the final value of the aliased object;
 * a possibly-throwing construction of a `T` is modelled by a flag
   `thr : Bool`: when `thr = true` the placement construction raises and
   the function returns the container state at the moment the exception
   leaves the member-function body (no object was constructed).
-/

namespace Bmstu

/-- `bmstu::bad_optional_access` (src/bmstu_optional.h:9): the sole error
condition, carrying no payload beyond its fixed message. -/
inductive BadOptionalAccess : Type
  | mk : BadOptionalAccess
deriving DecidableEq, Repr

/-- The state of a `bmstu::optional<T>` object: `data` is the live `T`
constructed in the storage buffer `data_` (`none` when no live object),
`engaged` is the member `is_initialized_` (src/bmstu_optional.h:195-196). -/
structure OptionalState (T : Type) where
  data : Option T
  engaged : Bool
deriving DecidableEq, Repr

namespace optional

variable {T : Type}

/-- `optional() = default` (line 27): members take their default member
initializers, `is_initialized_ = false`, storage unconstructed. -/
def mkDefault : OptionalState T := ⟨none, false⟩

/-- `bool has_value()` (lines 191-193). -/
def hasValue (s : OptionalState T) : Bool := s.engaged

/-- The raw storage read `*reinterpret_cast<pointer>(data_)`: yields the
live object if one exists, `none` models the undefined-behaviour read of
unconstructed bytes. -/
def readStorage (s : OptionalState T) : Option T := s.data

/-- `reference value() &` (lines 154-159): throws `bad_optional_access`
when disengaged, otherwise returns the storage reinterpreted as `T`. -/
def value (s : OptionalState T) : Except BadOptionalAccess (Option T) :=
  if !s.engaged then .error .mk else .ok (readStorage s)

/-- `const_reference value() const &` (lines 161-166). -/
def valueConst (s : OptionalState T) : Except BadOptionalAccess (Option T) :=
  if !s.engaged then .error .mk else .ok (readStorage s)

/-- `rvalue_reference operator*() &&` (lines 147-152): the checked rvalue
dereference. -/
def derefRvalue (s : OptionalState T) : Except BadOptionalAccess (Option T) :=
  if !s.engaged then .error .mk else .ok (readStorage s)

/-- `reference operator*() &` (lines 126-128): unchecked, returns the
storage reinterpreted as `T` with no engagement test. -/
def derefLvalue (s : OptionalState T) : Except BadOptionalAccess (Option T) :=
  .ok (readStorage s)

/-- `const_reference operator*() const &` (lines 130-132): unchecked. -/
def derefLvalueConst (s : OptionalState T) : Except BadOptionalAccess (Option T) :=
  .ok (readStorage s)

/-- `pointer operator->()` (lines 134-136): unchecked pointer into the
storage. -/
def arrow (s : OptionalState T) : Except BadOptionalAccess (Option T) :=
  .ok (readStorage s)

/-- `const_pointer operator->() const` (lines 138-140): unchecked. -/
def arrowConst (s : OptionalState T) : Except BadOptionalAccess (Option T) :=
  .ok (readStorage s)

/-- `void reset()` (lines 177-182): if engaged, calls the destructor of the
object in storage and clears the flag.  Returns the new state together with
the list of values whose destructor ran. -/
def reset (s : OptionalState T) : OptionalState T × List T :=
  if s.engaged then ((⟨none, false⟩ : OptionalState T), s.data.toList)
  else (s, [])

/-- `~optional()` (lines 184-189): destroys the contained object if
engaged.  Returns the list of values whose destructor ran. -/
def dtor (s : OptionalState T) : List T :=
  if s.engaged then s.data.toList else []

/-- `explicit optional(const value_type& value)` (lines 53-57).  The body
first sets `is_initialized_ = true` and only then placement-constructs
`T{value}`; `thr = true` models the copy constructor of `T` raising, in
which case the body is left with the flag already set and no object
constructed. -/
def ctorFromValueCopySteps (v : T) (thr : Bool) : OptionalState T :=
  let s : OptionalState T := ⟨none, false⟩
  let s : OptionalState T := { s with engaged := true }
  if thr then s else { s with data := some v }

/-- `explicit optional(value_type&& value)` (lines 59-63): same ordering,
flag first, then `new(data_) T(std::move(value))`.  Returns the new
container state and the residual value left in the caller's argument
(`(mv v).2` after a successful move, `v` untouched when the construction
raises before moving). -/
def ctorFromValueMoveSteps (mv : T → T × T) (v : T) (thr : Bool) :
    OptionalState T × T :=
  let s : OptionalState T := ⟨none, false⟩
  let s : OptionalState T := { s with engaged := true }
  if thr then (s, v) else ({ s with data := some (mv v).1 }, (mv v).2)

/-- `optional(const optional& other)` (lines 29-39).  The fresh object's
members are initialized first (`is_initialized_ = false`), then the body
runs, branching on both flags; only the `other`-engaged branch can fire.
`thr = true` models the placement copy construction of `T` raising; the
returned state is the destination when the body is left. -/
def copyCtorSteps (other : OptionalState T) (thr : Bool) :
    Except BadOptionalAccess (OptionalState T) :=
  let s : OptionalState T := ⟨none, false⟩
  if s.engaged && other.engaged then
    match valueConst other with
    | .error e => .error e
    | .ok v =>
      match value s with
      | .error e => .error e
      | .ok _ => .ok { s with data := v }
  else if !s.engaged && other.engaged then
    match valueConst other with
    | .error e => .error e
    | .ok v => if thr then .ok s else .ok ⟨v, true⟩
  else if s.engaged && !other.engaged then
    .ok (reset s).1
  else
    .ok s

/-- `optional(optional&& other) noexcept` (lines 41-51): like the copy
constructor but moving `other`'s contained value; `other.is_initialized_`
is never written, so the source keeps its flag and is left holding the
move residue. -/
def moveCtorSteps (mv : T → T × T) (other : OptionalState T) (thr : Bool) :
    Except BadOptionalAccess (OptionalState T × OptionalState T) :=
  let s : OptionalState T := ⟨none, false⟩
  if s.engaged && other.engaged then
    match value other with
    | .error e => .error e
    | .ok v =>
      match value s with
      | .error e => .error e
      | .ok _ =>
        .ok ({ s with data := v.map fun x => (mv x).1 },
             { other with data := v.map fun x => (mv x).2 })
  else if !s.engaged && other.engaged then
    match value other with
    | .error e => .error e
    | .ok v =>
      if thr then .ok (s, other)
      else .ok (⟨v.map fun x => (mv x).1, true⟩,
                { other with data := v.map fun x => (mv x).2 })
  else if s.engaged && !other.engaged then
    .ok ((reset s).1, other)
  else
    .ok (s, other)

/-- `optional& operator=(const value_type& val)` (lines 65-73): assigns
into the existing `T` through `value()` when engaged, otherwise placement
copy construction followed by setting the flag (`thr` models that
construction raising: the body is left with the state unchanged). -/
def assignValueCopySteps (s : OptionalState T) (v : T) (thr : Bool) :
    Except BadOptionalAccess (OptionalState T) :=
  if s.engaged then
    match value s with
    | .error e => .error e
    | .ok _ => .ok { s with data := some v }
  else
    if thr then .ok s else .ok ⟨some v, true⟩

/-- `optional& operator=(value_type&& val)` (lines 75-83): move form of the
value assignment.  Returns the new state together with the residual value
left in the caller's argument. -/
def assignValueMoveSteps (mv : T → T × T) (s : OptionalState T) (v : T)
    (thr : Bool) : Except BadOptionalAccess (OptionalState T × T) :=
  if s.engaged then
    match value s with
    | .error e => .error e
    | .ok _ => .ok ({ s with data := some (mv v).1 }, (mv v).2)
  else
    if thr then .ok (s, v) else .ok (⟨some (mv v).1, true⟩, (mv v).2)

/-- `optional& operator=(const optional& other)` (lines 85-100) when
`other` is a distinct object, so the `this == &other` guard does not fire
and the four-way branch on the flags runs. -/
def copyAssignOptSteps (s other : OptionalState T) (thr : Bool) :
    Except BadOptionalAccess (OptionalState T) :=
  if s.engaged && other.engaged then
    match valueConst other with
    | .error e => .error e
    | .ok v =>
      match value s with
      | .error e => .error e
      | .ok _ => .ok { s with data := v }
  else if !s.engaged && other.engaged then
    match valueConst other with
    | .error e => .error e
    | .ok v => if thr then .ok s else .ok ⟨v, true⟩
  else if s.engaged && !other.engaged then
    .ok (reset s).1
  else
    .ok s

/-- `optional& operator=(const optional& other)` when `&other == this`
(lines 86-88): the guard returns `*this` immediately. -/
def copyAssignOptSelf (s : OptionalState T) :
    Except BadOptionalAccess (OptionalState T) :=
  .ok s

/-- `optional& operator=(optional&& other)` (lines 102-113) when `other`
is a distinct object.  As in the move constructor the source's flag is
never written. -/
def moveAssignOptSteps (mv : T → T × T) (s other : OptionalState T)
    (thr : Bool) :
    Except BadOptionalAccess (OptionalState T × OptionalState T) :=
  if s.engaged && other.engaged then
    match value other with
    | .error e => .error e
    | .ok v =>
      match value s with
      | .error e => .error e
      | .ok _ =>
        .ok ({ s with data := v.map fun x => (mv x).1 },
             { other with data := v.map fun x => (mv x).2 })
  else if !s.engaged && other.engaged then
    match value other with
    | .error e => .error e
    | .ok v =>
      if thr then .ok (s, other)
      else .ok (⟨v.map fun x => (mv x).1, true⟩,
                { other with data := v.map fun x => (mv x).2 })
  else if s.engaged && !other.engaged then
    .ok ((reset s).1, other)
  else
    .ok (s, other)

/-- `optional& operator=(optional&& other)` when `other` aliases `this`:
the source (lines 102-113) has NO self-assignment guard, so the body runs
with both operands the same object.  Both flags coincide, so only the
both-engaged branch (which performs `value() = std::move(other.value())`,
i.e. a self-move-assignment of the contained `T`, modelled by `smv`) or
the final empty branch can fire; the two mixed branches are contradictory
under aliasing and are collapsed into the trailing case. -/
def moveAssignOptSelf (smv : T → T) (s : OptionalState T) :
    Except BadOptionalAccess (OptionalState T) :=
  if s.engaged && s.engaged then
    match value s with
    | .error e => .error e
    | .ok _ =>
      match value s with
      | .error e => .error e
      | .ok _ => .ok { s with data := s.data.map smv }
  else
    .ok s

/-- `void emplace(Args&&... args)` (lines 168-175): first `reset()` when
engaged, then `is_initialized_ = true`, then the placement construction
`new(data_) T(std::forward<Args>(args)...)`.  `v` is the value
`T(args...)` would produce; `thr = true` models that construction raising,
in which case the body is left with the flag already set.  Returns the new
state and the list of values destroyed by the initial `reset()`. -/
def emplaceSteps (s : OptionalState T) (v : T) (thr : Bool) :
    OptionalState T × List T :=
  let p := if s.engaged then reset s else (s, [])
  let s2 : OptionalState T := { p.1 with engaged := true }
  if thr then (s2, p.2) else ({ s2 with data := some v }, p.2)

/-- The representation invariant of `bmstu::optional<T>` (spec §3):
`is_initialized_` is true exactly when one live, constructed `T` sits in
the storage buffer. -/
def inv (s : OptionalState T) : Prop := s.engaged = s.data.isSome

instance (s : OptionalState T) : Decidable (inv s) := by
  unfold inv; infer_instance

/-- The copy constructor always returns normally: every `value()` call in
its body is guarded by the branch condition on the corresponding flag. -/
theorem copyCtorSteps_isOk (other : OptionalState T) (thr : Bool) :
    ∃ r, copyCtorSteps other thr = .ok r := by
  obtain ⟨d, e⟩ := other
  cases e <;> cases thr <;> exact ⟨_, rfl⟩

/-- The move constructor always returns normally. -/
theorem moveCtorSteps_isOk (mv : T → T × T) (other : OptionalState T)
    (thr : Bool) : ∃ r, moveCtorSteps mv other thr = .ok r := by
  obtain ⟨d, e⟩ := other
  cases e <;> cases thr <;> exact ⟨_, rfl⟩

/-- Copy assignment from a value always returns normally. -/
theorem assignValueCopySteps_isOk (s : OptionalState T) (v : T) (thr : Bool) :
    ∃ r, assignValueCopySteps s v thr = .ok r := by
  obtain ⟨d, e⟩ := s
  cases e <;> cases thr <;> exact ⟨_, rfl⟩

/-- Move assignment from a value always returns normally. -/
theorem assignValueMoveSteps_isOk (mv : T → T × T) (s : OptionalState T)
    (v : T) (thr : Bool) : ∃ r, assignValueMoveSteps mv s v thr = .ok r := by
  obtain ⟨d, e⟩ := s
  cases e <;> cases thr <;> exact ⟨_, rfl⟩

/-- Copy assignment from a distinct optional always returns normally. -/
theorem copyAssignOptSteps_isOk (s other : OptionalState T) (thr : Bool) :
    ∃ r, copyAssignOptSteps s other thr = .ok r := by
  obtain ⟨d, e⟩ := s
  obtain ⟨d2, e2⟩ := other
  cases e <;> cases e2 <;> cases thr <;> exact ⟨_, rfl⟩

/-- Move assignment from a distinct optional always returns normally. -/
theorem moveAssignOptSteps_isOk (mv : T → T × T) (s other : OptionalState T)
    (thr : Bool) : ∃ r, moveAssignOptSteps mv s other thr = .ok r := by
  obtain ⟨d, e⟩ := s
  obtain ⟨d2, e2⟩ := other
  cases e <;> cases e2 <;> cases thr <;> exact ⟨_, rfl⟩

/-- Aliased move assignment always returns normally. -/
theorem moveAssignOptSelf_isOk (smv : T → T) (s : OptionalState T) :
    ∃ r, moveAssignOptSelf smv s = .ok r := by
  obtain ⟨d, e⟩ := s
  cases e <;> exact ⟨_, rfl⟩

/-- C1: for every contained type and every container state, the checked
accessors `value()` (lvalue and const overloads) and the rvalue-qualified
dereference raise `BadOptionalAccess` exactly when the container is
disengaged and return the contained value without error when engaged; the
unchecked accessors and every other public operation (the constructors,
the four assignment operators — aliased or not — with any contained-type
move behaviour and any construction outcome) never raise
`BadOptionalAccess`. -/
theorem bad_access_iff_disengaged {T : Type} (s : OptionalState T) :
    (value s = .error .mk ↔ s.engaged = false)
    ∧ (valueConst s = .error .mk ↔ s.engaged = false)
    ∧ (derefRvalue s = .error .mk ↔ s.engaged = false)
    ∧ (s.engaged = true →
        value s = .ok s.data ∧ valueConst s = .ok s.data
          ∧ derefRvalue s = .ok s.data)
    ∧ derefLvalue s = .ok s.data
    ∧ derefLvalueConst s = .ok s.data
    ∧ arrow s = .ok s.data
    ∧ arrowConst s = .ok s.data
    ∧ (∀ (other : OptionalState T) (thr : Bool),
        ∃ r, copyCtorSteps other thr = .ok r)
    ∧ (∀ (mv : T → T × T) (other : OptionalState T) (thr : Bool),
        ∃ r, moveCtorSteps mv other thr = .ok r)
    ∧ (∀ (v : T) (thr : Bool), ∃ r, assignValueCopySteps s v thr = .ok r)
    ∧ (∀ (mv : T → T × T) (v : T) (thr : Bool),
        ∃ r, assignValueMoveSteps mv s v thr = .ok r)
    ∧ (∀ (other : OptionalState T) (thr : Bool),
        ∃ r, copyAssignOptSteps s other thr = .ok r)
    ∧ (∃ r, copyAssignOptSelf s = .ok r)
    ∧ (∀ (mv : T → T × T) (other : OptionalState T) (thr : Bool),
        ∃ r, moveAssignOptSteps mv s other thr = .ok r)
    ∧ (∀ smv : T → T, ∃ r, moveAssignOptSelf smv s = .ok r) := by
  refine ⟨?_, ?_, ?_, ?_, ?_, ?_, ?_, ?_,
    fun other thr => copyCtorSteps_isOk other thr,
    fun mv other thr => moveCtorSteps_isOk mv other thr,
    fun v thr => assignValueCopySteps_isOk s v thr,
    fun mv v thr => assignValueMoveSteps_isOk mv s v thr,
    fun other thr => copyAssignOptSteps_isOk s other thr,
    ⟨s, rfl⟩,
    fun mv other thr => moveAssignOptSteps_isOk mv s other thr,
    fun smv => moveAssignOptSelf_isOk smv s⟩
  all_goals obtain ⟨d, e⟩ := s
  all_goals cases e <;>
    simp [value, valueConst, derefRvalue, derefLvalue, derefLvalueConst,
      arrow, arrowConst, readStorage]

/-- Witness for `bad_access_iff_disengaged` at `T = Nat`: an engaged
container returns its value, a disengaged one raises. -/
theorem bad_access_iff_disengaged_witness :
    value (⟨some 3, true⟩ : OptionalState Nat) = .ok (some 3)
    ∧ valueConst (⟨none, false⟩ : OptionalState Nat) = .error .mk := by
  refine ⟨((bad_access_iff_disengaged ⟨some 3, true⟩).2.2.2.1 rfl).1, ?_⟩
  exact (bad_access_iff_disengaged
    (⟨none, false⟩ : OptionalState Nat)).2.1.mpr rfl

/-- C7: constructing a container from a value `v`, by copy or by move,
yields an engaged container whose contained value is `v` (respectively the
moved-equivalent `(mv v).1`), the caller's argument being left with the
move residue in the move case. -/
theorem ctor_from_value_engaged {T : Type} (v : T) (mv : T → T × T) :
    hasValue (ctorFromValueCopySteps v false) = true
    ∧ value (ctorFromValueCopySteps v false) = .ok (some v)
    ∧ hasValue (ctorFromValueMoveSteps mv v false).1 = true
    ∧ value (ctorFromValueMoveSteps mv v false).1 = .ok (some (mv v).1)
    ∧ (ctorFromValueMoveSteps mv v false).2 = (mv v).2 := by
  simp [hasValue, value, readStorage, ctorFromValueCopySteps,
    ctorFromValueMoveSteps]

/-- C8: for every prior state, `emplace(args...)` (whose construction
produces the value `v` that `T(args...)` yields) leaves the container
engaged, a subsequent `value()` returns exactly that value, and the values
destroyed by the initial `reset()` are exactly the previously contained
ones. -/
theorem emplace_then_value {T : Type} (s : OptionalState T) (v : T) :
    value (emplaceSteps s v false).1 = .ok (some v)
    ∧ hasValue (emplaceSteps s v false).1 = true
    ∧ (emplaceSteps s v false).2
        = if s.engaged then s.data.toList else [] := by
  obtain ⟨d, e⟩ := s
  cases e <;> simp [value, hasValue, readStorage, emplaceSteps, reset]

/-- C9: `reset()` leaves the container disengaged; on an engaged container
it runs the destructor of exactly the contained value, on a disengaged one
it changes nothing and destroys nothing; hence `reset` is idempotent. -/
theorem reset_disengages_idempotent {T : Type} (s : OptionalState T) :
    hasValue (reset s).1 = false
    ∧ (s.engaged = true → (reset s).2 = s.data.toList)
    ∧ (s.engaged = false → reset s = (s, []))
    ∧ reset (reset s).1 = ((reset s).1, []) := by
  obtain ⟨d, e⟩ := s
  cases e <;> simp [hasValue, reset]

/-- Witness for `reset_disengages_idempotent` at `T = Nat`: resetting an
engaged container holding `4` disengages it and destroys exactly `4`;
resetting a disengaged container is a no-op. -/
theorem reset_disengages_idempotent_witness :
    hasValue (reset (⟨some 4, true⟩ : OptionalState Nat)).1 = false
    ∧ (reset (⟨some 4, true⟩ : OptionalState Nat)).2 = [4]
    ∧ reset (⟨none, false⟩ : OptionalState Nat) = (⟨none, false⟩, []) := by
  refine ⟨(reset_disengages_idempotent ⟨some 4, true⟩).1,
    (reset_disengages_idempotent ⟨some 4, true⟩).2.1 rfl, ?_⟩
  exact (reset_disengages_idempotent
    (⟨none, false⟩ : OptionalState Nat)).2.2.1 rfl

/-- C10: the unchecked accessors — the lvalue dereferences and both arrow
operators — perform no engagement check and never raise
`BadOptionalAccess`: on every state, engaged or not, they return the raw
storage content, and their result does not depend on the flag at all. -/
theorem unchecked_access_no_check {T : Type} (s : OptionalState T) :
    derefLvalue s = .ok (readStorage s)
    ∧ derefLvalueConst s = .ok (readStorage s)
    ∧ arrow s = .ok (readStorage s)
    ∧ arrowConst s = .ok (readStorage s)
    ∧ derefLvalue (⟨s.data, true⟩ : OptionalState T)
        = derefLvalue (⟨s.data, false⟩ : OptionalState T)
    ∧ derefLvalueConst (⟨s.data, true⟩ : OptionalState T)
        = derefLvalueConst (⟨s.data, false⟩ : OptionalState T)
    ∧ arrow (⟨s.data, true⟩ : OptionalState T)
        = arrow (⟨s.data, false⟩ : OptionalState T)
    ∧ arrowConst (⟨s.data, true⟩ : OptionalState T)
        = arrowConst (⟨s.data, false⟩ : OptionalState T) := by
  simp [derefLvalue, derefLvalueConst, arrow, arrowConst, readStorage]

/-- The copy constructor establishes the invariant (for any construction
outcome: on a throw it leaves the half-built object with its flag still
false). -/
theorem inv_copyCtorSteps (other : OptionalState T) (ho : inv other)
    (thr : Bool) (r : OptionalState T) (h : copyCtorSteps other thr = .ok r) :
    inv r := by
  obtain ⟨d, e⟩ := other
  cases e <;> cases d <;> cases thr <;>
    simp_all [inv, copyCtorSteps, valueConst, value, readStorage, reset] <;>
    (subst h; rfl)

/-- The move constructor establishes the invariant on the destination and
preserves it on the source. -/
theorem inv_moveCtorSteps (mv : T → T × T) (other : OptionalState T)
    (ho : inv other) (thr : Bool) (d o : OptionalState T)
    (h : moveCtorSteps mv other thr = .ok (d, o)) : inv d ∧ inv o := by
  obtain ⟨d0, e0⟩ := other
  cases e0 <;> cases d0 <;> cases thr <;>
    simp_all [inv, moveCtorSteps, value, readStorage, reset] <;>
    (obtain ⟨rfl, rfl⟩ := h; exact ⟨rfl, rfl⟩)

/-- Copy assignment from a value preserves the invariant. -/
theorem inv_assignValueCopySteps (s : OptionalState T) (v : T) (hs : inv s)
    (thr : Bool) (r : OptionalState T)
    (h : assignValueCopySteps s v thr = .ok r) : inv r := by
  obtain ⟨d, e⟩ := s
  cases e <;> cases d <;> cases thr <;>
    simp_all [inv, assignValueCopySteps, value, readStorage] <;>
    (subst h; rfl)

/-- Move assignment from a value preserves the invariant. -/
theorem inv_assignValueMoveSteps (mv : T → T × T) (s : OptionalState T)
    (v : T) (hs : inv s) (thr : Bool) (r : OptionalState T × T)
    (h : assignValueMoveSteps mv s v thr = .ok r) : inv r.1 := by
  obtain ⟨d, e⟩ := s
  cases e <;> cases d <;> cases thr <;>
    simp_all [inv, assignValueMoveSteps, value, readStorage] <;>
    (subst h; rfl)

/-- Copy assignment from a distinct optional preserves the invariant. -/
theorem inv_copyAssignOptSteps (s other : OptionalState T) (hs : inv s)
    (ho : inv other) (thr : Bool) (r : OptionalState T)
    (h : copyAssignOptSteps s other thr = .ok r) : inv r := by
  obtain ⟨d, e⟩ := s
  obtain ⟨d2, e2⟩ := other
  cases e <;> cases e2 <;> cases d <;> cases d2 <;> cases thr <;>
    simp_all [inv, copyAssignOptSteps, valueConst, value, readStorage,
      reset] <;>
    (subst h; rfl)

/-- Move assignment from a distinct optional preserves the invariant on
both operands. -/
theorem inv_moveAssignOptSteps (mv : T → T × T) (s other : OptionalState T)
    (hs : inv s) (ho : inv other) (thr : Bool) (d o : OptionalState T)
    (h : moveAssignOptSteps mv s other thr = .ok (d, o)) : inv d ∧ inv o := by
  obtain ⟨d1, e1⟩ := s
  obtain ⟨d2, e2⟩ := other
  cases e1 <;> cases e2 <;> cases d1 <;> cases d2 <;> cases thr <;>
    simp_all [inv, moveAssignOptSteps, value, readStorage, reset] <;>
    (obtain ⟨rfl, rfl⟩ := h; exact ⟨rfl, rfl⟩)

/-- The unguarded aliased move assignment preserves the invariant. -/
theorem inv_moveAssignOptSelf (smv : T → T) (s : OptionalState T)
    (hs : inv s) (r : OptionalState T) (h : moveAssignOptSelf smv s = .ok r) :
    inv r := by
  obtain ⟨d, e⟩ := s
  cases e <;> cases d <;>
    simp_all [inv, moveAssignOptSelf, value, readStorage] <;>
    (subst h; rfl)

/-- C2 (amended): provided the placement constructions of `T` succeed,
every public operation of the container preserves the invariant — the
flag is true exactly when one live, constructed `T` occupies the storage.
The claim as stated is false for `emplace` when `T`'s constructor throws
(see the counterexample): the flag is set before the construction, so the
exception leaves the flag true with no live object in storage. -/
theorem inv_preserved_without_throwing (T : Type) :
    inv (mkDefault (T := T))
    ∧ (∀ v : T, inv (ctorFromValueCopySteps v false))
    ∧ (∀ (mv : T → T × T) (v : T), inv (ctorFromValueMoveSteps mv v false).1)
    ∧ (∀ other : OptionalState T, inv other →
        ∀ r, copyCtorSteps other false = .ok r → inv r)
    ∧ (∀ (mv : T → T × T) (other : OptionalState T), inv other →
        ∀ d o, moveCtorSteps mv other false = .ok (d, o) → inv d ∧ inv o)
    ∧ (∀ (s : OptionalState T) (v : T), inv s →
        ∀ r, assignValueCopySteps s v false = .ok r → inv r)
    ∧ (∀ (mv : T → T × T) (s : OptionalState T) (v : T), inv s →
        ∀ r, assignValueMoveSteps mv s v false = .ok r → inv r.1)
    ∧ (∀ s other : OptionalState T, inv s → inv other →
        ∀ r, copyAssignOptSteps s other false = .ok r → inv r)
    ∧ (∀ s : OptionalState T, inv s →
        ∀ r, copyAssignOptSelf s = .ok r → inv r)
    ∧ (∀ (mv : T → T × T) (s other : OptionalState T), inv s → inv other →
        ∀ d o, moveAssignOptSteps mv s other false = .ok (d, o) →
          inv d ∧ inv o)
    ∧ (∀ (smv : T → T) (s : OptionalState T), inv s →
        ∀ r, moveAssignOptSelf smv s = .ok r → inv r)
    ∧ (∀ (s : OptionalState T) (v : T), inv s →
        inv (emplaceSteps s v false).1)
    ∧ (∀ s : OptionalState T, inv s → inv (reset s).1) := by
  refine ⟨by simp [inv, mkDefault],
    fun v => by simp [inv, ctorFromValueCopySteps],
    fun mv v => by simp [inv, ctorFromValueMoveSteps],
    fun other ho r h => inv_copyCtorSteps other ho false r h,
    fun mv other ho d o h => inv_moveCtorSteps mv other ho false d o h,
    fun s v hs r h => inv_assignValueCopySteps s v hs false r h,
    fun mv s v hs r h => inv_assignValueMoveSteps mv s v hs false r h,
    fun s other hs ho r h => inv_copyAssignOptSteps s other hs ho false r h,
    ?_,
    fun mv s other hs ho d o h =>
      inv_moveAssignOptSteps mv s other hs ho false d o h,
    fun smv s hs r h => inv_moveAssignOptSelf smv s hs r h,
    ?_, ?_⟩
  · intro s hs r h
    obtain rfl : s = r := by
      simpa [copyAssignOptSelf] using h
    exact hs
  · intro s v hs
    obtain ⟨d, e⟩ := s
    cases e <;> simp_all [inv, emplaceSteps, reset]
  · intro s hs
    obtain ⟨d, e⟩ := s
    cases e <;> simp_all [inv, reset]

/-- Witness for `inv_preserved_without_throwing` at `T = Nat`: emplacing
`2` over an engaged container holding `1`, and copy-assigning from an
engaged source into a disengaged destination, both yield states satisfying
the invariant. -/
theorem inv_preserved_without_throwing_witness :
    inv (emplaceSteps (⟨some 1, true⟩ : OptionalState Nat) 2 false).1
    ∧ inv (⟨some 7, true⟩ : OptionalState Nat) := by
  obtain ⟨-, -, -, -, -, -, -, hca, -, -, -, hemp, -⟩ :=
    inv_preserved_without_throwing Nat
  refine ⟨hemp ⟨some 1, true⟩ 2 (by decide), ?_⟩
  exact hca ⟨none, false⟩ ⟨some 7, true⟩ (by decide) (by decide)
    ⟨some 7, true⟩ rfl

/-- C2 (counterexample): starting from a disengaged `optional<Nat>` that
satisfies the invariant, the public operation `emplace` whose construction
throws leaves a state that violates the invariant — the flag is true while
no live object sits in the storage. -/
theorem inv_violated_by_throwing_emplace_cx :
    decide (inv (⟨none, false⟩ : OptionalState Nat)) = true
    ∧ decide (inv (emplaceSteps (⟨none, false⟩ : OptionalState Nat) 0 true).1)
        = false
    ∧ (emplaceSteps (⟨none, false⟩ : OptionalState Nat) 0 true).1.engaged
        = true
    ∧ (emplaceSteps (⟨none, false⟩ : OptionalState Nat) 0 true).1.data
        = none := by
  decide

/-- C3 (counterexample): `emplace` on a disengaged `optional<Nat>` whose
construction throws leaves `has_value() = true`, not the disengaged state
the claim promises. -/
theorem emplace_throw_engaged_cx :
    hasValue (emplaceSteps (⟨none, false⟩ : OptionalState Nat) 0 true).1
      = true := by
  decide

/-- C3 (amended): if `T`'s constructor throws during `emplace`, the
container is left with `has_value() = true` after the exception
propagates — `is_initialized_` is assigned before the placement
construction runs, and nothing unwinds it. -/
theorem emplace_throw_leaves_engaged {T : Type} (s : OptionalState T)
    (v : T) : hasValue (emplaceSteps s v true).1 = true := by
  obtain ⟨d, e⟩ := s
  cases e <;> rfl

/-- C4 (counterexample): the value constructor sets the flag before the
placement construction: when that construction throws, the body is left
with the flag true, not false as the claim states. -/
theorem value_ctor_flag_first_cx :
    (ctorFromValueCopySteps (0 : Nat) true).engaged = true
    ∧ (ctorFromValueMoveSteps (fun x : Nat => (x, 0)) 0 true).1.engaged
        = true := by
  decide

/-- C4 (amended): the copy/move constructors from another optional and the
assignment operators with a disengaged destination set the flag only after
the placement construction succeeds, so a throwing `T` constructor leaves
the destination disengaged and unchanged; the two value constructors,
however, set the flag before constructing. -/
theorem flag_set_after_construction (T : Type) :
    (∀ (other : OptionalState T) (r : OptionalState T),
        copyCtorSteps other true = .ok r → r.engaged = false)
    ∧ (∀ (mv : T → T × T) (other : OptionalState T) (d o : OptionalState T),
        moveCtorSteps mv other true = .ok (d, o) → d.engaged = false)
    ∧ (∀ (s : OptionalState T) (v : T), s.engaged = false →
        ∀ r, assignValueCopySteps s v true = .ok r → r = s)
    ∧ (∀ (mv : T → T × T) (s : OptionalState T) (v : T), s.engaged = false →
        ∀ r, assignValueMoveSteps mv s v true = .ok r → r.1 = s)
    ∧ (∀ (s other : OptionalState T), s.engaged = false →
        ∀ r, copyAssignOptSteps s other true = .ok r → r = s)
    ∧ (∀ (mv : T → T × T) (s other : OptionalState T), s.engaged = false →
        ∀ d o, moveAssignOptSteps mv s other true = .ok (d, o) → d = s)
    ∧ (∀ v : T, (ctorFromValueCopySteps v true).engaged = true)
    ∧ (∀ (mv : T → T × T) (v : T),
        (ctorFromValueMoveSteps mv v true).1.engaged = true) := by
  refine ⟨?_, ?_, ?_, ?_, ?_, ?_, fun v => rfl, fun mv v => rfl⟩
  · intro other r h
    obtain ⟨d, e⟩ := other
    cases e <;>
      simp_all [copyCtorSteps, valueConst, readStorage, reset] <;>
      (subst h; rfl)
  · intro mv other d o h
    obtain ⟨d0, e0⟩ := other
    cases e0 <;>
      simp_all [moveCtorSteps, value, readStorage, reset] <;>
      (obtain ⟨rfl, rfl⟩ := h; rfl)
  · intro s v hs r h
    obtain ⟨d, e⟩ := s
    cases e <;> simp_all [assignValueCopySteps]
  · intro mv s v hs r h
    obtain ⟨d, e⟩ := s
    cases e <;> simp_all [assignValueMoveSteps, Prod.ext_iff]
  · intro s other hs r h
    obtain ⟨d, e⟩ := s
    obtain ⟨d2, e2⟩ := other
    cases e <;> cases e2 <;>
      simp_all [copyAssignOptSteps, valueConst, readStorage, reset]
  · intro mv s other hs d o h
    obtain ⟨d1, e1⟩ := s
    obtain ⟨d2, e2⟩ := other
    cases e1 <;> cases e2 <;>
      simp_all [moveAssignOptSteps, value, readStorage, reset]

/-- Witness for `flag_set_after_construction` at `T = Nat`: a throwing
copy-assignment into a disengaged destination leaves it unchanged, and a
throwing value construction nevertheless has its flag set. -/
theorem flag_set_after_construction_witness :
    (⟨none, false⟩ : OptionalState Nat) = ⟨none, false⟩
    ∧ (ctorFromValueCopySteps (5 : Nat) true).engaged = true := by
  refine ⟨(flag_set_after_construction Nat).2.2.2.2.1 ⟨none, false⟩
    ⟨some 7, true⟩ rfl ⟨none, false⟩ rfl, ?_⟩
  exact (flag_set_after_construction Nat).2.2.2.2.2.2.1 5

/-- A contained type with payload a single `Nat` whose move-assignment is
implemented as `x = o.x; o.x = 0;` — steal the payload, then clear the
source.  When the operands alias (self-move-assignment, `x = std::move(x)`)
the clearing statement hits the object itself, so the final payload is `0`
whatever it was before. -/
def stealClearSelfMoveAssign (_x : Nat) : Nat := 0

/-- C5 (counterexample): `operator=(optional&&)` has no self-assignment
guard, so `a = std::move(a)` on an engaged container self-move-assigns
the contained value; with a steal-and-clear move-assignment the contained
`5` becomes `0`, so self-move-assignment is not a no-op. -/
theorem move_self_assign_not_noop_cx :
    moveAssignOptSelf stealClearSelfMoveAssign ⟨some 5, true⟩
      = .ok (⟨some 0, true⟩ : OptionalState Nat)
    ∧ decide ((⟨some 0, true⟩ : OptionalState Nat) = ⟨some 5, true⟩)
        = false := by
  exact ⟨rfl, by decide⟩

/-- C5 (amended): copy self-assignment is guarded by the `this == &other`
check and is a no-op; move self-assignment is not guarded: it leaves the
engagement flag unchanged but, when engaged, replaces the contained value
by the result of `T`'s move-assignment applied with aliased operands, so
the contained value is not in general preserved. -/
theorem self_assign_amended {T : Type} (s : OptionalState T) (smv : T → T) :
    copyAssignOptSelf s = .ok s
    ∧ moveAssignOptSelf smv s
        = .ok (if s.engaged then { s with data := s.data.map smv } else s)
    ∧ ∀ r, moveAssignOptSelf smv s = .ok r → r.engaged = s.engaged := by
  obtain ⟨d, e⟩ := s
  cases e <;> simp_all [copyAssignOptSelf, moveAssignOptSelf, value,
    readStorage]

/-- Witness for `self_assign_amended` at `T = Nat`: the engagement of an
engaged container survives an (unguarded) move self-assignment. -/
theorem self_assign_amended_witness :
    copyAssignOptSelf (⟨some 5, true⟩ : OptionalState Nat)
      = .ok ⟨some 5, true⟩
    ∧ (⟨some 0, true⟩ : OptionalState Nat).engaged
        = (⟨some 5, true⟩ : OptionalState Nat).engaged := by
  obtain ⟨h1, h2, h3⟩ :=
    self_assign_amended (⟨some 5, true⟩ : OptionalState Nat)
      stealClearSelfMoveAssign
  exact ⟨h1, h3 ⟨some 0, true⟩ rfl⟩

/-- C6: after move construction or move assignment from an engaged source
(holding `x`), the destination is engaged and holds the moved value
`(mv x).1`, while the source's flag — which the bodies never write — stays
true: the source remains engaged, left with the move residue `(mv x).2`. -/
theorem move_keeps_source_engaged {T : Type} (mv : T → T × T)
    (other : OptionalState T) (x : T) (he : other.engaged = true)
    (hx : other.data = some x) :
    (∀ d o : OptionalState T, moveCtorSteps mv other false = .ok (d, o) →
        d.engaged = true ∧ d.data = some (mv x).1
          ∧ o.engaged = true ∧ o.data = some (mv x).2)
    ∧ (∀ s d o : OptionalState T,
        moveAssignOptSteps mv s other false = .ok (d, o) →
          d.engaged = true ∧ d.data = some (mv x).1
            ∧ o.engaged = true ∧ o.data = some (mv x).2) := by
  obtain ⟨d0, e0⟩ := other
  obtain rfl : e0 = true := he
  obtain rfl : d0 = some x := hx
  constructor
  · intro d o h
    simp_all [moveCtorSteps, value, readStorage]
    obtain ⟨rfl, rfl⟩ := h
    exact ⟨rfl, rfl, rfl, rfl⟩
  · intro s d o h
    obtain ⟨d1, e1⟩ := s
    cases e1 <;>
      simp_all [moveAssignOptSteps, value, readStorage] <;>
      (obtain ⟨rfl, rfl⟩ := h; exact ⟨rfl, rfl, rfl, rfl⟩)

/-- Witness for `move_keeps_source_engaged` at `T = Nat` with the usual
take-and-zero move: move-constructing from an engaged source holding `7`
yields an engaged destination holding `7` and leaves the source engaged,
holding the residue `0`. -/
theorem move_keeps_source_engaged_witness :
    moveCtorSteps (fun x : Nat => (x, 0)) ⟨some 7, true⟩ false
      = .ok (⟨some 7, true⟩, ⟨some 0, true⟩)
    ∧ (⟨some 7, true⟩ : OptionalState Nat).engaged = true
    ∧ (⟨some 0, true⟩ : OptionalState Nat).engaged = true := by
  obtain ⟨h1, h2, h3, h4⟩ :=
    (move_keeps_source_engaged (fun x : Nat => (x, 0)) ⟨some 7, true⟩ 7
      rfl rfl).1 ⟨some 7, true⟩ ⟨some 0, true⟩ rfl
  exact ⟨rfl, h1, h3⟩

end optional

end Bmstu
